import Mathlib

/-!
Verification of the home0-api ingestion pipeline against its
natural-language specification.

Each definition below is a shallow embedding of a function or code block
of the repository (the TypeScript source file and symbol are named in the
doc comment).  Effectful code (D1 writes, R2 puts, workflow bindings) is
embedded by passing the store state explicitly and returning the writes
that were performed; `JSON.parse` applied to a line of text is embedded
by classifying each input line as blank, malformed, or parsed to a JSON
object carrying the fields the code inspects.
-/

namespace Home0

/-! ## JSON line model (Response Decoder)

The decoders only inspect two fields of a parsed line: a `status` field
(truthiness test) and a `zpid` identifier field.  A parsed JSON object is
modelled by those two optional fields. -/

/-- A JSON object as far as the decoders inspect it: its optional
`status` field and its optional `zpid` identifier field. -/
structure JObj where
  status : Option String
  zpid : Option String
deriving DecidableEq, Repr

instance : Inhabited JObj := ⟨⟨none, none⟩⟩

/-- Outcome of `JSON.parse` on one trimmed line of the payload: the line
is blank (skipped before parsing), fails to parse (logged and skipped),
or parses to a JSON object. -/
inductive LineParse where
  | blank : LineParse
  | malformed : LineParse
  | ok : JObj → LineParse
deriving DecidableEq, Repr

/-- The `parsedLines` accumulator of both NDJSON fallback loops: each
non-blank line is parsed independently and lines that fail to parse are
skipped. -/
def parsedLinesOf (ls : List LineParse) : List JObj :=
  ls.filterMap fun l =>
    match l with
    | .ok v => some v
    | _ => none

/-- JavaScript truthiness of a string-valued field: present and nonempty.
Embeds the `parsedLines[0].status` condition. -/
def truthyStr : Option String → Bool
  | none => false
  | some s => s ≠ ""

/-- The `statusData` value produced by the poll-for-completion step:
a status field and the record list. -/
structure StatusData where
  status : Option String
  data : List JObj
deriving DecidableEq, Repr

/-- From src/workflows/zillow-data-collector.ts, `poll-for-completion`
step, NDJSON fallback (lines 86-128): when whole-input `JSON.parse`
fails, a single-line response is a hard error; otherwise each non-blank
line is parsed independently and failures are skipped; if no line parses
the decode fails; if more than one line parsed and the first parsed line
has a truthy `status` field it is treated as a metadata header and the
remaining lines are the records, otherwise all parsed lines are records
with status `ready`. -/
def pollLineFallback (ls : List LineParse) : Except String StatusData :=
  if ls.length = 1 then
    .error "Invalid JSON response from BrightData - response too large"
  else
    match parsedLinesOf ls with
    | [] => .error "No valid JSON found in response"
    | h :: rest =>
      if rest.length > 0 ∧ truthyStr h.status then
        .ok ⟨h.status, rest⟩
      else
        .ok ⟨some "ready", h :: rest⟩

/-- The value returned by the `fetch-brightdata-data` step. -/
structure FetchResult where
  status : String
  data : List JObj
  dataset_size : Nat
deriving DecidableEq, Repr

/-- From src/zillow/workflows/data-collector.ts, `fetch-brightdata-data`
step, JSONL fallback (lines 210-236): when whole-input `JSON.parse`
fails, each non-blank line is parsed independently, failures are skipped,
and the step returns status `ready` with whatever parsed — it has no
failure outcome for the case where zero lines parse. -/
def fetchBrightdataDecode (ls : List LineParse) : FetchResult :=
  let parsedData := parsedLinesOf ls
  ⟨"ready", parsedData, parsedData.length⟩

/-! ## Batch Coordinator (zillow/workflows/property-details.ts, `process-property-details` step) -/

/-- One entry of `validPropertiesData`: a zpid with its stored URL. -/
structure PropRef where
  zpid : String
  url : Option String
deriving DecidableEq, Repr

/-- Fuel-indexed body of the chunking loop; the fuel bounds the number
of iterations and is set to the list length, which the loop never
exceeds for a positive batch size. -/
def buildBatchesGo (batchSize : Nat) : Nat → List α → List (List α)
  | 0, _ => []
  | _, [] => []
  | fuel + 1, x :: xs =>
    (x :: xs).take batchSize :: buildBatchesGo batchSize fuel ((x :: xs).drop batchSize)

/-- The chunking loop of the `process-property-details` step
(`for (let i = 0; i < n; i += batchSize) batches.push(slice(i, i + batchSize))`). -/
def buildBatches (batchSize : Nat) (items : List α) : List (List α) :=
  buildBatchesGo batchSize items.length items

/-- One element of `batchResults`: the outcome recorded for a batch,
success (with data and snapshot id) or error (with message and
`dataCount` zero). -/
structure BatchOutcome where
  batchIndex : Nat
  zpids : List String
  dataCount : Nat
  data : Option (List JObj)
  snapshotId : Option String
  error : Option String
deriving DecidableEq, Repr

/-- The body of one iteration of the batch loop, abstracted over the
submission/detection/decoding work `f` for that batch (which either
throws with a message or yields a snapshot id and decoded records): the
`try` arm pushes a success outcome, the `catch` arm pushes an error
outcome with `dataCount` zero. -/
def batchIteration (f : Nat → List PropRef → Except String (String × List JObj))
    (i : Nat) (batch : List PropRef) : BatchOutcome :=
  match f i batch with
  | .ok (snapId, detailsData) =>
    ⟨i + 1, batch.map (·.zpid), detailsData.length, some detailsData, some snapId, none⟩
  | .error e =>
    ⟨i + 1, batch.map (·.zpid), 0, none, none, some e⟩

/-- The full `process-property-details` loop: chunk the valid properties
into batches, run every batch in order, and record one outcome per
batch;  a throw inside one iteration is caught inside that iteration, so
the loop always continues to the next batch. -/
def processPropertyDetails (validPropertiesData : List PropRef) (batchSize : Nat)
    (f : Nat → List PropRef → Except String (String × List JObj)) : List BatchOutcome :=
  (buildBatches batchSize validPropertiesData).mapIdx fun i batch => batchIteration f i batch

/-! ## Ingestion Writer (database/schema.ts, `storePropertiesInDatabase`)

The per-property body of `storePropertiesInDatabase` is a `try` block
that performs a fixed sequence of awaited D1 writes and is aborted at the
first write that throws (the `catch` only logs).  The writes that
committed are therefore the longest prefix of the sequence on which no
write failed.  The same structure appears in the `store-property-details`
step of workflows/zillow-property-details.ts (part of the repository with
unknown file name, lines 276-313). -/

/-- The shape of one parsed property as far as the write sequence
branches on it: which optional sections are present. -/
structure PropShape where
  has_reso_facts : Bool
  has_description : Bool
  has_responsive_photos : Bool
  has_price_history : Bool
  has_tax_history : Bool
  has_schools : Bool
deriving DecidableEq, Repr

/-- The awaited D1 writes of the per-property body, in program order. -/
inductive WriteOp where
  | insertProperty : WriteOp
  | insertPropertyDetails : WriteOp
  | insertPropertyPhotos : WriteOp
  | insertPriceHistory : WriteOp
  | insertTaxHistory : WriteOp
  | insertSchools : WriteOp
  | setHasDetails : WriteOp
deriving DecidableEq, Repr

/-- The condition `property.reso_facts || property.description ||
property.responsive_photos` guarding the detail writes. -/
def isDetailedData (p : PropShape) : Bool :=
  p.has_reso_facts || p.has_description || p.has_responsive_photos

/-- The nested-collection writes performed for a detailed property, in
program order: details row, then photos, price history, tax history and
schools when present. -/
def detailWrites (p : PropShape) : List WriteOp :=
  [WriteOp.insertPropertyDetails]
    ++ (if p.has_responsive_photos then [WriteOp.insertPropertyPhotos] else [])
    ++ (if p.has_price_history then [WriteOp.insertPriceHistory] else [])
    ++ (if p.has_tax_history then [WriteOp.insertTaxHistory] else [])
    ++ (if p.has_schools then [WriteOp.insertSchools] else [])

/-- The full write sequence of the per-property `try` block: the primary
row upsert, then for detailed data the nested writes followed by the
`UPDATE properties SET has_details = TRUE` statement. -/
def writeSeq (p : PropShape) : List WriteOp :=
  WriteOp.insertProperty ::
    (if isDetailedData p then detailWrites p ++ [WriteOp.setHasDetails] else [])

/-- The writes that committed, given which writes fail when attempted:
execution proceeds in order and the first failing write aborts the
`try` block, so the committed writes are the longest failure-free
prefix. -/
def committedWrites (p : PropShape) (fails : WriteOp → Bool) : List WriteOp :=
  (writeSeq p).takeWhile fun op => ! fails op

/-- Whether the per-property body set the `has_details` flag. -/
def hasDetailsFlagSet (p : PropShape) (fails : WriteOp → Bool) : Bool :=
  WriteOp.setHasDetails ∈ committedWrites p fails

/-! ## Identifier (zpid) normalization

Three distinct normalizations appear before persistence.  Strings are
modelled as lists of characters so that suffix tests compute. -/

/-- A zpid value as it arrives in a parsed record: a JSON number or a
JSON string. -/
inductive ZpidVal where
  | num : ℚ → ZpidVal
  | str : List Char → ZpidVal
deriving DecidableEq

/-- From database/schema.ts lines 73-77 (`insertProperty`, and identically
`insertPropertyDetails` lines 113-116): `typeof property.zpid === 'number'
? Math.floor(property.zpid).toString() : String(property.zpid)`. -/
def normalizeZpidInsert : ZpidVal → List Char
  | .num q => (toString ⌊q⌋).data
  | .str s => s

/-- From database/schema.ts lines 171-175 (`insertPropertyPhotos`, and
identically `insertPriceHistory`, `insertTaxHistory`, `insertSchools`):
`zpidParam.endsWith('.0') ? zpidParam.slice(0, -2) : zpidParam`.
A list ends with `['.', '0']` exactly when its reverse starts with
`['0', '.']`, and dropping the last two characters is reversing,
dropping two, and reversing back. -/
def normalizeZpidStrip (s : List Char) : List Char :=
  if s.reverse.take 2 = ['0', '.'] then (s.reverse.drop 2).reverse else s

/-- From the `store-property-details` step of
workflows/zillow-property-details.ts (lines 269-274):
`property.zpid.toString().includes('.') ? property.zpid.toString() :
`+`.0` — the zpid is normalized TOWARD the `.0`-suffixed form "to match
the database". -/
def normalizeZpidDetails (s : List Char) : List Char :=
  if '.' ∈ s then s else s ++ ['.', '0']

/-! ## Run Tracker (shared/workflow-tracker.ts, `WorkflowTracker`) -/

/-- The run statuses of `WorkflowStatus`. -/
inductive WStatus where
  | queued : WStatus
  | running : WStatus
  | completed : WStatus
  | failed : WStatus
  | cancelled : WStatus
deriving DecidableEq, Repr

/-- One row of `workflow_runs`, restricted to the columns the tracker
mutates.  Timestamps are modelled as integer seconds; the
`julianday` difference times 86400 of the SQL is then the plain
difference of the two timestamps. -/
structure WorkflowRunRow where
  status : WStatus
  started_at : Option Int
  completed_at : Option Int
  duration_seconds : Option Int
  error_message : Option String
  total_requested : Int
  total_processed : Int
  total_errors : Int
  total_skipped : Int
  r2_files_created : Int
  r2_total_size_bytes : Int
  brightdata_snapshots : Option (List String)
  webhook_used : Bool
  updated_at : Int
deriving DecidableEq, Repr

/-- From shared/workflow-tracker.ts lines 177-212
(`WorkflowTracker.updateStatus`): `running` stamps `started_at`;
`completed`/`failed` stamp `completed_at`, compute the duration from the
stored `started_at`, and record the error message; any other status just
overwrites status and error message.  No branch inspects the current
status of the row. -/
def updateStatus (r : WorkflowRunRow) (status : WStatus)
    (errorMessage : Option String) (now : Int) : WorkflowRunRow :=
  match status with
  | .running =>
    { r with status := .running, started_at := some now, updated_at := now }
  | .completed =>
    { r with status := .completed, completed_at := some now,
             duration_seconds := r.started_at.map fun s => now - s,
             error_message := errorMessage, updated_at := now }
  | .failed =>
    { r with status := .failed, completed_at := some now,
             duration_seconds := r.started_at.map fun s => now - s,
             error_message := errorMessage, updated_at := now }
  | s =>
    { r with status := s, error_message := errorMessage, updated_at := now }

/-- The `Partial WorkflowMetrics` argument of `updateMetrics`: each field
is present or absent. -/
structure PartialMetrics where
  totalRequested : Option Int
  totalProcessed : Option Int
  totalErrors : Option Int
  totalSkipped : Option Int
  r2FilesCreated : Option Int
  r2TotalSizeBytes : Option Int
  brightdataSnapshots : Option (List String)
  webhookUsed : Option Bool
deriving DecidableEq, Repr

/-- Whether `updateMetrics` builds a nonempty `updates` list. -/
def anyMetricPresent (m : PartialMetrics) : Bool :=
  m.totalRequested.isSome || m.totalProcessed.isSome || m.totalErrors.isSome
    || m.totalSkipped.isSome || m.r2FilesCreated.isSome || m.r2TotalSizeBytes.isSome
    || m.brightdataSnapshots.isSome || m.webhookUsed.isSome

/-- From shared/workflow-tracker.ts lines 217-265
(`WorkflowTracker.updateMetrics`): every supplied field is written with a
plain SQL assignment `column = ?` (no accumulation); absent fields keep
the stored value; if no field is supplied no UPDATE runs at all. -/
def updateMetrics (r : WorkflowRunRow) (m : PartialMetrics) (now : Int) :
    WorkflowRunRow :=
  if anyMetricPresent m then
    { r with
      total_requested := m.totalRequested.getD r.total_requested,
      total_processed := m.totalProcessed.getD r.total_processed,
      total_errors := m.totalErrors.getD r.total_errors,
      total_skipped := m.totalSkipped.getD r.total_skipped,
      r2_files_created := m.r2FilesCreated.getD r.r2_files_created,
      r2_total_size_bytes := m.r2TotalSizeBytes.getD r.r2_total_size_bytes,
      brightdata_snapshots :=
        match m.brightdataSnapshots with
        | some l => some l
        | none => r.brightdata_snapshots,
      webhook_used := m.webhookUsed.getD r.webhook_used,
      updated_at := now }
  else r

/-- The aggregate counters of a run named by the idempotence property:
requested, processed, errors, skipped, R2 files, R2 bytes, and the
provider snapshot list. -/
def runCounters (r : WorkflowRunRow) :
    Int × Int × Int × Int × Int × Int × Option (List String) :=
  (r.total_requested, r.total_processed, r.total_errors, r.total_skipped,
   r.r2_files_created, r.r2_total_size_bytes, r.brightdata_snapshots)

/-! ## Webhook Security Gate (zillow/router.ts) -/

/-- One row of `snapshot_workflow_mapping`: the per-submission webhook
registration looked up by provider handle (snapshot id). -/
structure SnapshotMapping where
  workflow_id : String
  workflow_type : String
  webhook_secret : String
deriving DecidableEq, Repr

/-- One record of a data-delivery body, as far as the handler inspects
it: its optional `snapshot_id` field. -/
structure DataRec where
  snapshot_id : Option String
deriving DecidableEq, Repr

/-- The inbound data-delivery request.  `body` is the outcome of the
body parse (`JSON.parse` per line for NDJSON content types, `req.json()`
otherwise): either a thrown parse error or the decoded record array
together with the raw text that is kept for quarantine storage. -/
structure EndpointRequest where
  method : String
  querySecret : Option String
  authHeader : Option String
  xSnapshotId : Option String
  body : Except Unit (List DataRec × String)
deriving Repr

/-- An R2 `put`: the object key, body, and the custom metadata the
handler attaches (snapshot id, receipt time, record count). -/
structure R2PutRecord where
  key : String
  bodyText : String
  meta_snapshot_id : String
  meta_received_at : Int
  meta_record_count : Nat
deriving DecidableEq, Repr

/-- The HTTP response of the data-delivery handler. -/
inductive EndpointResponse where
  | methodNotAllowed : EndpointResponse
  | unauthorizedMissingSecret : EndpointResponse
  | parseError : EndpointResponse
  | invalidPayload : EndpointResponse
  | noSnapshotId : EndpointResponse
  | storedTemp : String → EndpointResponse
  | unauthorizedBearer : EndpointResponse
  | okDelivered : String → Nat → EndpointResponse
deriving DecidableEq, Repr

/-- The observable outcome of one call of the data-delivery handler: the
HTTP response, the R2 puts performed, and the payload handed to a
workflow instance (the ingestion path), if any. -/
structure EndpointResult where
  response : EndpointResponse
  puts : List R2PutRecord
  delivered : Option (String × List DataRec)
deriving Repr

/-- From zillow/router.ts lines 83-95 (`validateWebhookSecurity`): the
query secret is only checked for PRESENCE here; the comment defers the
match against the stored secret to the per-handler code. -/
def validateWebhookSecurity (querySecret : Option String) : Bool :=
  querySecret.isSome

/-- The snapshot id resolution of the data handler:
`req.headers.get('x-snapshot-id') || data[0]?.snapshot_id`. -/
def resolveSnapshotId (xSnapshotId : Option String) (data : List DataRec) :
    Option String :=
  xSnapshotId <|> (data.head?.bind fun r => r.snapshot_id)

/-- The quarantine key of an unsolicited delivery:
`temp-webhooks/SNAPSHOT/data-NOW.jsonl`. -/
def tempWebhookKey (snapshotId : String) (now : Int) : String :=
  "temp-webhooks/" ++ snapshotId ++ "/data-" ++ toString now ++ ".jsonl"

/-- From zillow/router.ts lines 179-282 (`handleBrightDataEndpoint`):
method check, query-secret presence check, body parse, non-empty-array
check, snapshot id resolution, registration lookup; with no registration
the raw payload is stored under a temp-webhooks key with receipt
metadata and the handler reports success with that key; with a
registration the Authorization header must equal `Bearer` followed by
the STORED secret (the query secret itself is never compared against the
stored secret on this path), and only then is the payload handed to the
workflow instance. -/
def handleBrightDataEndpoint (req : EndpointRequest)
    (mappings : String → Option SnapshotMapping) (now : Int) : EndpointResult :=
  if req.method ≠ "POST" then ⟨.methodNotAllowed, [], none⟩
  else if ¬ validateWebhookSecurity req.querySecret then
    ⟨.unauthorizedMissingSecret, [], none⟩
  else
    match req.body with
    | .error _ => ⟨.parseError, [], none⟩
    | .ok (data, text) =>
      if data.length = 0 then ⟨.invalidPayload, [], none⟩
      else
        match resolveSnapshotId req.xSnapshotId data with
        | none => ⟨.noSnapshotId, [], none⟩
        | some snapshotId =>
          match mappings snapshotId with
          | none =>
            let tempKey := tempWebhookKey snapshotId now
            ⟨.storedTemp tempKey, [⟨tempKey, text, snapshotId, now, data.length⟩], none⟩
          | some mapping =>
            if req.authHeader ≠ some ("Bearer " ++ mapping.webhook_secret) then
              ⟨.unauthorizedBearer, [], none⟩
            else
              ⟨.okDelivered snapshotId data.length, [],
               some (mapping.workflow_id, data)⟩

/-! ## Auto detail-collection endpoint (zillow/handlers/details.ts, `handleZillowDetailsAuto`) -/

/-- One row of `properties` as far as the auto query inspects it. -/
structure PropertyRow where
  zpid : String
  collection_id : Option String
  has_details : Option Bool
  created_at : Int
deriving DecidableEq, Repr

/-- The SQL predicate `has_details = FALSE OR has_details IS NULL`. -/
def needsDetails (r : PropertyRow) : Bool :=
  r.has_details = some false || r.has_details = none

/-- The SQL predicate `created_at > datetime('now', '-7 days')`, with
timestamps in seconds. -/
def withinSevenDays (r : PropertyRow) (now : Int) : Bool :=
  decide (r.created_at > now - 604800)

/-- The row set of the no-collection auto query: filter on
`needsDetails` and the 7-day window, `ORDER BY created_at DESC`,
`LIMIT ?`. -/
def autoQueryRows (db : List PropertyRow) (now : Int) (limit : Nat) :
    List PropertyRow :=
  (((db.filter fun r => needsDetails r && withinSevenDays r now).mergeSort
      fun a b => b.created_at ≤ a.created_at).take limit)

/-- The row set of the with-collection auto query: filter on the
collection id and `needsDetails` (no 7-day window), `ORDER BY created_at
DESC`, `LIMIT ?`. -/
def autoQueryCollectionRows (db : List PropertyRow) (cid : String)
    (limit : Nat) : List PropertyRow :=
  (((db.filter fun r => r.collection_id = some cid && needsDetails r).mergeSort
      fun a b => b.created_at ≤ a.created_at).take limit)

/-- The workflow parameters of a created detail run. -/
structure DetailsParams where
  zpids : List String
  batchSize : Nat
  source : String
  collectionId : Option String
deriving DecidableEq, Repr

/-- The observable outcome of `handleZillowDetailsAuto`: either the
no-properties response (no workflow instance, no run record), or a
workflow instance created with the given parameters. -/
inductive AutoResponse where
  | noProperties : AutoResponse
  | created : DetailsParams → AutoResponse
deriving DecidableEq, Repr

/-- JavaScript `value || default` on an optional numeric field: absent
or zero falls back to the default. -/
def orDefaultNat (o : Option Nat) (d : Nat) : Nat :=
  match o with
  | some n => if n = 0 then d else n
  | none => d

/-- From zillow/handlers/details.ts lines 70-140
(`handleZillowDetailsAuto`): defaults `limit` to 50 and `batchSize` to
10, runs the collection-filtered query when a `collectionId` is supplied
and otherwise the 7-day-window query, and if no zpid is returned answers
with the no-properties message without creating a workflow instance;
otherwise it creates the `ZILLOW_PROPERTY_DETAILS` instance with source
`auto`. -/
def handleZillowDetailsAuto (db : List PropertyRow) (now : Int)
    (limit batchSize : Option Nat) (collectionId : Option String) : AutoResponse :=
  let lim := orDefaultNat limit 50
  let bs := orDefaultNat batchSize 10
  let zpids : List String :=
    match collectionId with
    | some cid => (autoQueryCollectionRows db cid lim).map fun r => r.zpid
    | none => (autoQueryRows db now lim).map fun r => r.zpid
  if zpids.length = 0 then .noProperties
  else .created ⟨zpids, bs, "auto", collectionId⟩

/-! ## Concrete fixtures used by counterexamples and witnesses -/

/-- A run row that has already reached the terminal `completed` status. -/
def completedRowEx : WorkflowRunRow :=
  ⟨WStatus.completed, some 1, some 4, some 3, none, 5, 4, 1, 0, 1, 100, some ["snapA"], true, 4⟩

/-- A registration table holding one registration: provider handle
`snap1` with secret `s3cret`. -/
def mappingsEx : String → Option SnapshotMapping := fun s =>
  if s = "snap1" then some ⟨"wf1", "property_details", "s3cret"⟩ else none

/-- A data-delivery request whose query secret is present but WRONG for
the stored registration, while the bearer header carries the stored
secret. -/
def reqWrongQuery : EndpointRequest :=
  ⟨"POST", some "wrong", some "Bearer s3cret", some "snap1", Except.ok ([⟨none⟩], "x")⟩

/-- A data-delivery request with a correct query secret but a wrong
bearer header. -/
def reqWrongBearer : EndpointRequest :=
  ⟨"POST", some "s3cret", some "Bearer nope", some "snap1", Except.ok ([⟨none⟩], "x")⟩

/-- A data-delivery request for a provider handle with no stored
registration. -/
def reqUnsolicited : EndpointRequest :=
  ⟨"POST", some "anything", none, some "snapX", Except.ok ([⟨some "snapX"⟩], "payload")⟩

/-- Twenty-five work items for the batch-size fixture. -/
def xsEx : List PropRef := (List.range 25).map fun n => ⟨toString n, none⟩

/-- The second ten of the twenty-five fixture items: the batch at
index 1. -/
def batchEx : List PropRef :=
  ["10", "11", "12", "13", "14", "15", "16", "17", "18", "19"].map fun s => ⟨s, none⟩

/-- A batch worker that throws on the second batch (index 1) and
succeeds with no records elsewhere. -/
def fEx : Nat → List PropRef → Except String (String × List JObj) := fun i _ =>
  if i = 1 then Except.error "boom" else Except.ok ("snap", [])

/-! ## Helper lemmas -/

/-- Membership of the final element in a `takeWhile` prefix: when `a`
does not occur earlier, `a` survives `takeWhile p` exactly when every
element of the list satisfies `p`. -/
theorem mem_takeWhile_append_singleton {α : Type _} (p : α → Bool) (a : α) :
    ∀ ys : List α, a ∉ ys →
      (a ∈ (ys ++ [a]).takeWhile p ↔ ∀ x ∈ ys ++ [a], p x = true) := by
  intro ys
  induction ys with
  | nil =>
    intro _
    by_cases hpa : p a = true
    · simp [List.takeWhile_cons, hpa]
    · simp [List.takeWhile_cons, hpa]
  | cons y ys ih =>
    intro ha
    have hay : a ≠ y := fun h => ha (h ▸ List.mem_cons_self y ys)
    have ha' : a ∉ ys := fun h => ha (List.mem_cons_of_mem y h)
    by_cases hpy : p y = true
    · simp only [List.cons_append, List.takeWhile_cons, hpy, if_true]
      rw [List.mem_cons]
      simp only [List.mem_cons]
      constructor
      · rintro (h | h)
        · exact absurd h hay
        · intro x hx
          rcases hx with hx | hx
          · subst hx; exact hpy
          · exact ((ih ha').mp h) x hx
      · intro h
        right
        exact (ih ha').mpr fun x hx => h x (Or.inr hx)
    · simp only [List.cons_append, List.takeWhile_cons, hpy, if_false]
      constructor
      · intro h
        exact absurd h (List.not_mem_nil a)
      · intro h
        exact absurd (h y (List.mem_cons_self y _)) hpy

/-- Absorption of a repeated `Option.getD` assignment. -/
theorem getD_assign_absorb {α : Type _} (o : Option α) (x : α) :
    o.getD (o.getD x) = o.getD x := by
  cases o <;> rfl

/-- The fuel of `buildBatchesGo` is irrelevant as long as it covers the
list length and the batch size is positive. -/
theorem buildBatchesGo_fuel {α : Type _} (k : Nat) (hk : 0 < k) :
    ∀ fuel₁ fuel₂ (l : List α), l.length ≤ fuel₁ → l.length ≤ fuel₂ →
      buildBatchesGo k fuel₁ l = buildBatchesGo k fuel₂ l := by
  intro fuel₁
  induction fuel₁ with
  | zero =>
    intro fuel₂ l h₁ _
    have : l = [] := List.eq_nil_of_length_eq_zero (Nat.le_zero.mp h₁)
    subst this
    cases fuel₂ <;> rfl
  | succ f ih =>
    intro fuel₂ l h₁ h₂
    cases l with
    | nil => cases fuel₂ <;> rfl
    | cons x xs =>
      cases fuel₂ with
      | zero => simp at h₂
      | succ f₂ =>
        simp only [buildBatchesGo]
        congr 1
        apply ih
        · simp only [List.length_drop, List.length_cons] at *
          omega
        · simp only [List.length_drop, List.length_cons] at *
          omega

/-- Unfolding of `buildBatches` on a nonempty list for a positive batch
size: the first `batchSize` items form the head chunk and the loop
continues on the rest. -/
theorem buildBatches_cons_eq {α : Type _} (k : Nat) (hk : 0 < k) (x : α) (xs : List α) :
    buildBatches k (x :: xs) = (x :: xs).take k :: buildBatches k ((x :: xs).drop k) := by
  show buildBatchesGo k (xs.length + 1) (x :: xs) = _
  simp only [buildBatchesGo]
  congr 1
  apply buildBatchesGo_fuel k hk
  · simp only [List.length_drop, List.length_cons]; omega
  · simp only [List.length_drop, List.length_cons]
    exact Nat.le_refl _

/-- The chunks concatenate back to the input list: chunking loses no
item and keeps the order. -/
theorem buildBatches_flatten {α : Type _} (k : Nat) (hk : 0 < k) :
    ∀ n (xs : List α), xs.length ≤ n → (buildBatches k xs).flatten = xs := by
  intro n
  induction n with
  | zero =>
    intro xs h
    have : xs = [] := List.eq_nil_of_length_eq_zero (Nat.le_zero.mp h)
    subst this
    rfl
  | succ n ih =>
    intro xs h
    cases xs with
    | nil => rfl
    | cons x xs =>
      rw [buildBatches_cons_eq k hk, List.flatten_cons]
      rw [ih ((x :: xs).drop k)
        (by simp only [List.length_drop, List.length_cons] at *; omega)]
      exact List.take_append_drop k (x :: xs)

/-- Unfolding of `buildBatches` on any nonempty list. -/
theorem buildBatches_ne_nil_eq {α : Type _} (k : Nat) (hk : 0 < k) (xs : List α)
    (h : xs ≠ []) :
    buildBatches k xs = xs.take k :: buildBatches k (xs.drop k) := by
  cases xs with
  | nil => exact absurd rfl h
  | cons x xs => exact buildBatches_cons_eq k hk x xs

/-- Index access through `mapIdx`. -/
theorem mapIdx_getElem? {α β : Type _} (f : Nat → α → β) (l : List α) (i : Nat) :
    (l.mapIdx f)[i]? = (l[i]?).map (f i) := by
  by_cases h : i < l.length
  · have h' : i < (l.mapIdx f).length := by
      simpa using h
    rw [List.getElem?_eq_getElem h', List.getElem?_eq_getElem h]
    simp only [Option.map_some']
    have hg := List.get_mapIdx l f i h h'
    rw [List.get_eq_getElem, List.get_eq_getElem] at hg
    rw [hg]
  · rw [List.getElem?_eq_none (by simpa using Nat.le_of_not_lt h),
      List.getElem?_eq_none (Nat.le_of_not_lt h)]
    rfl

/-! ## Claim C6 — metrics update idempotence -/

/-- C6: applying the Run Tracker's `updateMetrics` twice with the exact
same metrics snapshot leaves the run's aggregate counters (requested,
processed, errors, skipped, R2 files created, R2 bytes written, provider
snapshot list) equal to applying it once: every supplied field is
written by plain assignment, so the second application does not
double-count. -/
theorem updateMetrics_idempotent (r : WorkflowRunRow) (m : PartialMetrics)
    (t₁ t₂ : Int) :
    runCounters (updateMetrics (updateMetrics r m t₁) m t₂) =
      runCounters (updateMetrics r m t₁) := by
  by_cases hm : anyMetricPresent m = true
  · simp only [updateMetrics, hm, if_true, runCounters]
    cases m.brightdataSnapshots <;>
      simp [getD_assign_absorb]
  · have hm' : anyMetricPresent m = false := by
      simpa using hm
    simp [updateMetrics, hm']

/-! ## Claim C7 — status monotonicity -/

/-- C7 counterexample: a run row whose status is the terminal
`completed` has its status changed to `running` by a subsequent
`updateStatus` call — the tracker never inspects the stored status, so
terminal statuses are not protected and the claimed monotonicity fails
at this concrete input. -/
theorem updateStatus_resurrects_completed_run :
    completedRowEx.status = WStatus.completed ∧
      (updateStatus completedRowEx WStatus.running none 5).status =
        WStatus.running := by
  constructor <;> rfl

/-- C7 amended: `updateStatus` applies the requested status
unconditionally — the stored status is never read, so the
queued → running → terminal order is only as monotonic as its callers;
a call on a completed or failed run overwrites the terminal status. -/
theorem updateStatus_overwrites_unconditionally (r : WorkflowRunRow)
    (s : WStatus) (e : Option String) (now : Int) :
    (updateStatus r s e now).status = s := by
  cases s <;> rfl

/-! ## Claim C3 — identifier normalization -/

/-- C3 counterexample: the claim fails at two of the normalization
sites.  The primary-row normalization of `insertProperty` leaves a
float-like STRING identifier unchanged, so a spurious `123.0` does not
normalize to the canonical `123`; and the `store-property-details`
step's normalization maps the already-canonical `123` to `123.0`, so it
is not identity on canonical identifiers. -/
theorem zpid_normalization_counterexample :
    normalizeZpidInsert (ZpidVal.str "123.0".data) ≠
        normalizeZpidInsert (ZpidVal.str "123".data)
      ∧ normalizeZpidInsert (ZpidVal.str "123.0".data) = "123.0".data
      ∧ normalizeZpidDetails "123".data ≠ "123".data := by
  refine ⟨by decide, rfl, by decide⟩

/-- C3 amended: only the nested-collection normalization
(`insertPropertyPhotos`, `insertPriceHistory`, `insertTaxHistory`,
`insertSchools`) canonicalizes: for an integer string `t` (no dot), the
float-like `t.0` normalizes to `t` and the canonical `t` is left
unchanged (hence the normalization is idempotent on these inputs).  The
primary-row normalization of `insertProperty` leaves string identifiers
untouched, and the detail-store step instead appends `.0` to dotless
identifiers. -/
theorem zpid_strip_normalization (t : List Char) (ht : '.' ∉ t) :
    normalizeZpidStrip (t ++ ['.', '0']) = t
      ∧ normalizeZpidStrip t = t
      ∧ normalizeZpidInsert (ZpidVal.str t) = t
      ∧ normalizeZpidDetails t = t ++ ['.', '0'] := by
  refine ⟨?_, ?_, rfl, ?_⟩
  · simp [normalizeZpidStrip, List.reverse_append]
  · unfold normalizeZpidStrip
    rw [if_neg]
    intro hcontra
    have hmem : '.' ∈ t.reverse.take 2 := by
      rw [hcontra]
      simp
    exact ht (List.mem_reverse.mp (List.mem_of_mem_take hmem))
  · simp [normalizeZpidDetails, ht]

/-- C3 witness: the amended normalization facts evaluated at the
concrete identifier `123`. -/
theorem zpid_strip_normalization_witness :
    normalizeZpidStrip "123.0".data = "123".data
      ∧ normalizeZpidStrip "123".data = "123".data := by
  have h := zpid_strip_normalization "123".data (by decide)
  have heq : "123.0".data = "123".data ++ ['.', '0'] := by decide
  exact ⟨by rw [heq]; exact h.1, h.2.1⟩

/-! ## Claim C4 — data-delivery webhook security -/

/-- C4 counterexample: a data-delivery request whose query secret is
present but does NOT match the stored registration secret, while the
bearer header carries the stored secret, is accepted and its payload is
handed to the ingestion path — the handler never compares the query
secret against the stored secret, so the claimed query-secret-match
requirement fails at this concrete input. -/
theorem endpoint_accepts_wrong_query_secret :
    (handleBrightDataEndpoint reqWrongQuery mappingsEx 0).delivered =
        some ("wf1", [⟨none⟩])
      ∧ reqWrongQuery.querySecret = some "wrong"
      ∧ mappingsEx "snap1" = some ⟨"wf1", "property_details", "s3cret"⟩
      ∧ ("wrong" : String) ≠ "s3cret" := by
  refine ⟨rfl, rfl, rfl, by decide⟩

/-- C4 amended: the data-delivery handler accepts a request only if a
query secret is PRESENT (its value is never compared against the stored
registration on this path) and the Authorization header equals `Bearer`
followed by the stored registration secret; a request with a correct
query secret but a missing or wrong bearer header is answered 401 with
no store write and its payload is never handed to the ingestion path. -/
theorem endpoint_bearer_gate :
    (∀ (req : EndpointRequest) (mappings : String → Option SnapshotMapping)
        (now : Int) (wf : String) (payload : List DataRec),
      (handleBrightDataEndpoint req mappings now).delivered = some (wf, payload) →
        req.querySecret.isSome = true ∧
        ∃ text snapId m, req.body = Except.ok (payload, text)
          ∧ resolveSnapshotId req.xSnapshotId payload = some snapId
          ∧ mappings snapId = some m
          ∧ wf = m.workflow_id
          ∧ req.authHeader = some ("Bearer " ++ m.webhook_secret))
    ∧ (∀ (req : EndpointRequest) (mappings : String → Option SnapshotMapping)
        (now : Int) (data : List DataRec) (text snapId : String)
        (m : SnapshotMapping),
      req.method = "POST" →
      req.querySecret.isSome = true →
      req.body = Except.ok (data, text) →
      data.length ≠ 0 →
      resolveSnapshotId req.xSnapshotId data = some snapId →
      mappings snapId = some m →
      req.authHeader ≠ some ("Bearer " ++ m.webhook_secret) →
      handleBrightDataEndpoint req mappings now =
        ⟨EndpointResponse.unauthorizedBearer, [], none⟩) := by
  constructor
  · intro req mappings now wf payload h
    unfold handleBrightDataEndpoint at h
    by_cases hm : req.method ≠ "POST"
    · rw [if_pos hm] at h
      exact absurd h (by simp)
    rw [if_neg hm] at h
    by_cases hq : validateWebhookSecurity req.querySecret = true
    · rw [if_neg (by simp [hq])] at h
      refine ⟨hq, ?_⟩
      cases hb : req.body with
      | error e =>
        rw [hb] at h
        exact absurd h (by simp)
      | ok pair =>
        rw [hb] at h
        obtain ⟨data, text⟩ := pair
        dsimp only at h
        by_cases hd : data.length = 0
        · rw [if_pos hd] at h
          exact absurd h (by simp)
        rw [if_neg hd] at h
        cases hs : resolveSnapshotId req.xSnapshotId data with
        | none =>
          rw [hs] at h
          exact absurd h (by simp)
        | some snapId =>
          rw [hs] at h
          dsimp only at h
          cases hmp : mappings snapId with
          | none =>
            rw [hmp] at h
            exact absurd h (by simp)
          | some mapping =>
            rw [hmp] at h
            dsimp only at h
            by_cases ha : req.authHeader ≠ some ("Bearer " ++ mapping.webhook_secret)
            · rw [if_pos ha] at h
              exact absurd h (by simp)
            · rw [if_neg ha] at h
              simp only [Option.some.injEq, Prod.mk.injEq] at h
              obtain ⟨hwf, hpd⟩ := h
              subst hpd
              exact ⟨text, snapId, mapping, rfl, hs, hmp, hwf.symm, not_not.mp ha⟩
    · rw [if_pos (by simpa using hq)] at h
      exact absurd h (by simp)
  · intro req mappings now data text snapId m hm hq hb hd hs hmp ha
    unfold handleBrightDataEndpoint
    rw [if_neg (by simp [hm]), if_neg (by simp [validateWebhookSecurity, hq]), hb]
    dsimp only
    rw [if_neg hd, hs]
    dsimp only
    rw [hmp]
    dsimp only
    rw [if_pos ha]

/-- C4 witness: the bearer gate evaluated at a concrete request whose
query secret is correct but whose bearer header is wrong: answered 401,
nothing written, nothing delivered. -/
theorem endpoint_bearer_gate_witness :
    handleBrightDataEndpoint reqWrongBearer mappingsEx 0 =
      ⟨EndpointResponse.unauthorizedBearer, [], none⟩ :=
  endpoint_bearer_gate.2 reqWrongBearer mappingsEx 0 [⟨none⟩] "x" "snap1"
    ⟨"wf1", "property_details", "s3cret"⟩ rfl rfl rfl (by decide) rfl rfl (by decide)

/-! ## Claim C9 — unsolicited payload quarantine -/

/-- C9: an inbound data delivery whose provider handle has no stored
registration is not dropped: the raw payload is written to the blob
store under a `temp-webhooks` key built from the provider handle, with
receipt metadata (snapshot id, receipt time, record count), and the
handler reports success with that quarantine key. -/
theorem endpoint_unsolicited_quarantine (req : EndpointRequest)
    (mappings : String → Option SnapshotMapping) (now : Int)
    (data : List DataRec) (text snapId : String)
    (hm : req.method = "POST") (hq : req.querySecret.isSome = true)
    (hb : req.body = Except.ok (data, text)) (hd : data.length ≠ 0)
    (hs : resolveSnapshotId req.xSnapshotId data = some snapId)
    (hn : mappings snapId = none) :
    handleBrightDataEndpoint req mappings now =
      ⟨EndpointResponse.storedTemp (tempWebhookKey snapId now),
       [⟨tempWebhookKey snapId now, text, snapId, now, data.length⟩], none⟩ := by
  unfold handleBrightDataEndpoint
  rw [if_neg (by simp [hm]), if_neg (by simp [validateWebhookSecurity, hq]), hb]
  dsimp only
  rw [if_neg hd, hs]
  dsimp only
  rw [hn]

/-- C9 witness: the quarantine behaviour evaluated at a concrete
unsolicited delivery for handle `snapX`. -/
theorem endpoint_unsolicited_quarantine_witness :
    handleBrightDataEndpoint reqUnsolicited mappingsEx 7 =
      ⟨EndpointResponse.storedTemp (tempWebhookKey "snapX" 7),
       [⟨tempWebhookKey "snapX" 7, "payload", "snapX", 7,
         ([(⟨some "snapX"⟩ : DataRec)] : List DataRec).length⟩], none⟩ :=
  endpoint_unsolicited_quarantine reqUnsolicited mappingsEx 7 [⟨some "snapX"⟩]
    "payload" "snapX" rfl rfl rfl (by decide) rfl (by decide)

/-! ## Claim C10 — auto detail-collection selection window -/

/-- C10: without a collectionId, the auto detail-collection query
selects only rows that still need details and were created within the
last 7 days (so an un-enriched property older than 7 days is never
selected), and when no row matches the handler answers with the
no-properties response without creating a workflow instance. -/
theorem details_auto_seven_day_window :
    (∀ (db : List PropertyRow) (now : Int) (limit : Nat) (r : PropertyRow),
        r ∈ autoQueryRows db now limit →
          needsDetails r = true ∧ r.created_at > now - 604800)
    ∧ (∀ (db : List PropertyRow) (now : Int) (limit batchSize : Option Nat),
        (∀ r ∈ db, ¬ (needsDetails r = true ∧ r.created_at > now - 604800)) →
          handleZillowDetailsAuto db now limit batchSize none =
            AutoResponse.noProperties) := by
  constructor
  · intro db now limit r hr
    have h1 : r ∈ (db.filter fun r => needsDetails r && withinSevenDays r now) :=
      List.mem_mergeSort.mp (List.mem_of_mem_take hr)
    have h2 := (List.mem_filter.mp h1).2
    simp only [Bool.and_eq_true, withinSevenDays, decide_eq_true_eq] at h2
    exact h2
  · intro db now limit batchSize hnone
    have hfe : (db.filter fun r => needsDetails r && withinSevenDays r now) = [] := by
      rw [List.filter_eq_nil_iff]
      intro r hr
      have hn := hnone r hr
      simp only [Bool.and_eq_true, withinSevenDays, decide_eq_true_eq]
      intro hcon
      exact hn ⟨hcon.1, hcon.2⟩
    simp [handleZillowDetailsAuto, autoQueryRows, hfe]

/-- C10 witness: the no-properties answer evaluated on a store holding
one un-enriched property created far outside the 7-day window. -/
theorem details_auto_seven_day_window_witness :
    handleZillowDetailsAuto [⟨"1", none, some false, 0⟩] 10000000 none none none =
      AutoResponse.noProperties :=
  details_auto_seven_day_window.2 [⟨"1", none, some false, 0⟩] 10000000 none none
    (by decide)

/-! ## Claims C5 and C8 — NDJSON fallback decoding -/

/-- Counting parsed lines: with no blank lines, the parsed lines and the
malformed lines partition the input. -/
theorem parsedLinesOf_length_add_malformed :
    ∀ ls : List LineParse, (∀ l ∈ ls, l ≠ LineParse.blank) →
      (parsedLinesOf ls).length
          + ls.countP (fun l => decide (l = LineParse.malformed)) = ls.length := by
  intro ls
  induction ls with
  | nil => intro _; rfl
  | cons l ls ih =>
    intro h
    have hl := h l (List.mem_cons_self _ _)
    have h' : ∀ x ∈ ls, x ≠ LineParse.blank := fun x hx =>
      h x (List.mem_cons_of_mem _ hx)
    have hrec := ih h'
    cases l with
    | blank => exact absurd rfl hl
    | malformed =>
      simp only [parsedLinesOf] at hrec ⊢
      simp only [List.filterMap_cons, List.countP_cons, List.length_cons]
      simp
      omega
    | ok v =>
      simp only [parsedLinesOf] at hrec ⊢
      simp only [List.filterMap_cons, List.countP_cons, List.length_cons]
      simp
      omega

/-- C5 amended: in the poll-for-completion decoder, for a multi-line
payload the decode fails exactly when zero lines parse, and with no
blank lines and exactly one malformed line the parsed records number one
less than the lines, the decode succeeding.  (The fetch-brightdata-data
decoder skips failing lines the same way but, per the counterexample,
has no failure outcome when zero lines parse.) -/
theorem poll_line_isolation :
    (∀ ls : List LineParse, ls.length ≠ 1 →
        ((∃ e, pollLineFallback ls = Except.error e) ↔ parsedLinesOf ls = []))
    ∧ (∀ ls : List LineParse, (∀ l ∈ ls, l ≠ LineParse.blank) →
        ls.countP (fun l => decide (l = LineParse.malformed)) = 1 →
          (parsedLinesOf ls).length + 1 = ls.length
            ∧ (ls.length ≠ 1 → ∃ sd, pollLineFallback ls = Except.ok sd)) := by
  constructor
  · intro ls hne
    unfold pollLineFallback
    rw [if_neg hne]
    cases hp : parsedLinesOf ls with
    | nil => simp
    | cons h rest =>
      dsimp only
      by_cases hc : rest.length > 0 ∧ truthyStr h.status = true
      · rw [if_pos hc]
        simp
      · rw [if_neg hc]
        simp
  · intro ls hb hcount
    have hlen := parsedLinesOf_length_add_malformed ls hb
    constructor
    · omega
    · intro hne1
      have hppos : parsedLinesOf ls ≠ [] := by
        intro hnil
        rw [hnil] at hlen
        simp only [List.length_nil, Nat.zero_add] at hlen
        omega
      unfold pollLineFallback
      rw [if_neg hne1]
      cases hp : parsedLinesOf ls with
      | nil => exact absurd hp hppos
      | cons hh rest =>
        dsimp only
        by_cases hc : rest.length > 0 ∧ truthyStr hh.status = true
        · rw [if_pos hc]
          exact ⟨_, rfl⟩
        · rw [if_neg hc]
          exact ⟨_, rfl⟩

/-- C5 counterexample: a two-line payload where both lines are malformed
— zero lines parse, yet the fetch-brightdata-data decode does not fail:
it returns a ready result with an empty record list (its fallback loop
has no zero-parse failure branch), refuting the claimed
fails-iff-zero-parse behaviour for this decoder. -/
theorem fetch_decode_zero_parse_counterexample :
    fetchBrightdataDecode [LineParse.malformed, LineParse.malformed] =
        ⟨"ready", [], 0⟩
      ∧ parsedLinesOf [LineParse.malformed, LineParse.malformed] = [] := by
  constructor <;> rfl

/-- C5 witness: the poll decoder on a three-line payload with exactly
one malformed line parses two records and succeeds. -/
theorem poll_line_isolation_witness :
    (parsedLinesOf [LineParse.ok ⟨none, some "1"⟩, LineParse.malformed,
          LineParse.ok ⟨none, some "2"⟩]).length + 1 =
        ([LineParse.ok ⟨none, some "1"⟩, LineParse.malformed,
          LineParse.ok ⟨none, some "2"⟩] : List LineParse).length
      ∧ ∃ sd, pollLineFallback [LineParse.ok ⟨none, some "1"⟩, LineParse.malformed,
          LineParse.ok ⟨none, some "2"⟩] = Except.ok sd := by
  have h := poll_line_isolation.2
    [LineParse.ok ⟨none, some "1"⟩, LineParse.malformed, LineParse.ok ⟨none, some "2"⟩]
    (by decide) (by decide)
  exact ⟨h.1, h.2 (by decide)⟩

/-- C8 counterexample: two parsed lines whose FIRST line carries both a
truthy status field and an identifier field: the claim says such a line
is not run metadata (it has an identifier) and all lines should be
returned, but the code consults only the status field, drops the first
line as a header and returns a single record. -/
theorem poll_header_detection_counterexample :
    pollLineFallback
        [LineParse.ok ⟨some "ready", some "123"⟩,
         LineParse.ok ⟨none, some "456"⟩] =
        Except.ok ⟨some "ready", [⟨none, some "456"⟩]⟩
      ∧ (⟨some "ready", some "123"⟩ : JObj).zpid = some "123" := by
  constructor <;> rfl

/-- C8 amended: with more than one parsed line, the first parsed line is
treated as a metadata header exactly when its status field is truthy —
the identifier field is never consulted — and then only the remaining
lines are returned as records under the header's status; otherwise all
parsed lines are returned as records with status ready. -/
theorem poll_header_detection :
    (∀ (ls : List LineParse) (h : JObj) (rest : List JObj),
        ls.length ≠ 1 → parsedLinesOf ls = h :: rest → rest ≠ [] →
        truthyStr h.status = true →
          pollLineFallback ls = Except.ok ⟨h.status, rest⟩)
    ∧ (∀ (ls : List LineParse) (h : JObj) (rest : List JObj),
        ls.length ≠ 1 → parsedLinesOf ls = h :: rest →
        (rest = [] ∨ truthyStr h.status = false) →
          pollLineFallback ls = Except.ok ⟨some "ready", h :: rest⟩) := by
  constructor
  · intro ls h rest hne hp hrest hst
    unfold pollLineFallback
    rw [if_neg hne, hp]
    dsimp only
    rw [if_pos ⟨List.length_pos.mpr hrest, hst⟩]
  · intro ls h rest hne hp hdis
    unfold pollLineFallback
    rw [if_neg hne, hp]
    dsimp only
    rw [if_neg ?_]
    rintro ⟨hlen, hst⟩
    rcases hdis with hrest | hfalse
    · rw [hrest] at hlen
      simp at hlen
    · rw [hfalse] at hst
      cases hst

/-- C8 witness: a first parsed line with a truthy status and no
identifier is dropped as a header and the remaining line is the record
list. -/
theorem poll_header_detection_witness :
    pollLineFallback [LineParse.ok ⟨some "running", none⟩,
        LineParse.ok ⟨none, some "9"⟩] =
      Except.ok ⟨some "running", [⟨none, some "9"⟩]⟩ :=
  poll_header_detection.1
    [LineParse.ok ⟨some "running", none⟩, LineParse.ok ⟨none, some "9"⟩]
    ⟨some "running", none⟩ [⟨none, some "9"⟩]
    (by decide) (by decide) (by decide) (by decide)

/-! ## Claim C1 — enriched flag only after all nested writes -/

/-- C1: the per-property body of `storePropertiesInDatabase` sets the
`has_details` flag exactly when the property carries detail data AND no
write of its sequence — the primary upsert, every nested-collection
write (details, photos, price history, tax history, schools) and the
flag update itself — failed; in particular a failure of any nested write
leaves the flag unset for that identifier, so the row remains selected
by the un-enriched queries of a future run. -/
theorem storeProperties_enriched_flag (p : PropShape) (fails : WriteOp → Bool) :
    hasDetailsFlagSet p fails = true ↔
      (isDetailedData p = true ∧ ∀ op ∈ writeSeq p, fails op = false) := by
  by_cases hd : isDetailedData p = true
  · unfold hasDetailsFlagSet committedWrites writeSeq
    rw [if_pos hd]
    have hnm : WriteOp.setHasDetails ∉ WriteOp.insertProperty :: detailWrites p := by
      intro hmem
      rcases List.mem_cons.mp hmem with hc | hc
      · cases hc
      · unfold detailWrites at hc
        split_ifs at hc <;> simp_all
    have hseq : WriteOp.insertProperty :: (detailWrites p ++ [WriteOp.setHasDetails])
        = (WriteOp.insertProperty :: detailWrites p) ++ [WriteOp.setHasDetails] := rfl
    rw [hseq]
    have hmt := mem_takeWhile_append_singleton (fun op => ! fails op)
      WriteOp.setHasDetails (WriteOp.insertProperty :: detailWrites p) hnm
    simp only [decide_eq_true_eq]
    rw [hmt]
    simp only [Bool.not_eq_true']
    simp [hd]
  · unfold hasDetailsFlagSet committedWrites writeSeq
    rw [if_neg hd]
    cases hf : fails WriteOp.insertProperty <;>
      simp [List.takeWhile_cons, hf, hd]

/-- C1 witness: with every detail section present and the price-history
write failing, the flag is not set. -/
theorem storeProperties_enriched_flag_witness :
    hasDetailsFlagSet ⟨true, true, true, true, true, true⟩
      (fun op => op == WriteOp.insertPriceHistory) = false := by
  cases hval : hasDetailsFlagSet ⟨true, true, true, true, true, true⟩
      (fun op => op == WriteOp.insertPriceHistory) with
  | false => rfl
  | true =>
    have h := (storeProperties_enriched_flag ⟨true, true, true, true, true, true⟩
      (fun op => op == WriteOp.insertPriceHistory)).mp hval
    have hx := h.2 WriteOp.insertPriceHistory (by decide)
    simp at hx

/-! ## Claim C2 — batch chunking and failure isolation -/

/-- C2: twenty-five work items with batch size 10 are chunked into
exactly the consecutive batches of sizes 10, 10 and 5, concatenating
back to the input in order; and for any batch list, an iteration whose
work throws is recorded as an outcome carrying the error message and
dataCount 0, while every other batch is still processed and its own
outcome recorded — one failing batch never aborts its siblings. -/
theorem processPropertyDetails_isolation :
    (∀ xs : List PropRef, xs.length = 25 →
        (buildBatches 10 xs).map List.length = [10, 10, 5]
          ∧ (buildBatches 10 xs).flatten = xs)
    ∧ (∀ (xs : List PropRef) (k : Nat)
        (f : Nat → List PropRef → Except String (String × List JObj))
        (i : Nat) (batch : List PropRef) (e : String),
        (buildBatches k xs)[i]? = some batch → f i batch = Except.error e →
          (processPropertyDetails xs k f)[i]? =
            some ⟨i + 1, batch.map (·.zpid), 0, none, none, some e⟩)
    ∧ (∀ (xs : List PropRef) (k : Nat)
        (f : Nat → List PropRef → Except String (String × List JObj))
        (i : Nat) (batch : List PropRef) (snapId : String) (details : List JObj),
        (buildBatches k xs)[i]? = some batch →
        f i batch = Except.ok (snapId, details) →
          (processPropertyDetails xs k f)[i]? =
            some ⟨i + 1, batch.map (·.zpid), details.length, some details,
                  some snapId, none⟩) := by
  refine ⟨?_, ?_, ?_⟩
  · intro xs h25
    have h0 : xs ≠ [] := by
      intro hcon
      rw [hcon] at h25
      cases h25
    have e1 := buildBatches_ne_nil_eq 10 (by omega) xs h0
    have l1 : (xs.drop 10).length = 15 := by
      simp [h25]
    have h1 : xs.drop 10 ≠ [] := by
      intro hcon
      rw [hcon] at l1
      cases l1
    have e2 := buildBatches_ne_nil_eq 10 (by omega) (xs.drop 10) h1
    have l2 : ((xs.drop 10).drop 10).length = 5 := by
      simp [h25]
    have h2 : (xs.drop 10).drop 10 ≠ [] := by
      intro hcon
      rw [hcon] at l2
      cases l2
    have e3 := buildBatches_ne_nil_eq 10 (by omega) ((xs.drop 10).drop 10) h2
    have l3 : ((xs.drop 10).drop 10).drop 10 = [] :=
      List.eq_nil_of_length_eq_zero (by simp [h25])
    constructor
    · rw [e1, e2, e3, l3]
      simp [buildBatches, buildBatchesGo, List.length_take, List.length_drop, h25]
    · exact buildBatches_flatten 10 (by omega) xs.length xs (Nat.le_refl _)
  · intro xs k f i batch e hb hf
    unfold processPropertyDetails
    rw [mapIdx_getElem?, hb]
    simp only [Option.map_some']
    unfold batchIteration
    rw [hf]
  · intro xs k f i batch snapId details hb hf
    unfold processPropertyDetails
    rw [mapIdx_getElem?, hb]
    simp only [Option.map_some']
    unfold batchIteration
    rw [hf]

/-- C2 witness: the chunk sizes and the recorded outcome of the failing
second batch, evaluated on 25 concrete items with a worker that throws
only on batch index 1. -/
theorem processPropertyDetails_isolation_witness :
    (buildBatches 10 xsEx).map List.length = [10, 10, 5]
      ∧ (processPropertyDetails xsEx 10 fEx)[1]? =
          some ⟨2, batchEx.map (·.zpid), 0, none, none, some "boom"⟩
      ∧ (processPropertyDetails xsEx 10 fEx)[0]? =
          some ⟨1, (xsEx.take 10).map (·.zpid), 0, some [], some "snap", none⟩ := by
  refine ⟨(processPropertyDetails_isolation.1 xsEx (by decide)).1, ?_, ?_⟩
  · exact processPropertyDetails_isolation.2.1 xsEx 10 fEx 1 batchEx "boom"
      (by decide) rfl
  · exact processPropertyDetails_isolation.2.2 xsEx 10 fEx 0 (xsEx.take 10) "snap" []
      (by decide) rfl

end Home0
